import Mathlib

/-!
Verification development for the `beak` HTTP dispatch core
(src/lib.rs, src/err.rs, src/main.rs).

The dispatch loop in `run` (src/lib.rs lines 76–168) is embedded as a pure
step function over an explicit per-worker state (the reusable multipart
buffer).  The external collaborators (the `matchit` router, the `multipart`
parser and the `tiny_http` request/response plumbing) are modelled from the
spec's boundary contracts (spec §6), since their code is not part of this
repository; every modelled definition says so in its doc comment.
Bytes are modelled as `Nat`; all definitions are executable.
-/

set_option autoImplicit false

namespace Beak

/-- An `std::io::Error`, abstracted to the one attribute the dispatch loop
inspects: whether `tiny_http` classifies it as caused by the client closing
the connection early (`ignore_client_closing_errors`). -/
structure IOErr where
  clientClosing : Bool
deriving DecidableEq, Repr

/-- `BeakError` from src/err.rs: a single variant wrapping `std::io::Error`. -/
inductive BeakError where
  | IOError (e : IOErr)
deriving DecidableEq, Repr

/-- `BeakResult<T>` from src/err.rs. -/
abbrev BeakResult (α : Type) := Except BeakError α

/-- Decidable equality for `Except`, needed to evaluate the model on
concrete inputs. -/
def exceptDecEq {ε α : Type} [DecidableEq ε] [DecidableEq α] :
    DecidableEq (Except ε α) := fun a b =>
  match a, b with
  | .ok x, .ok y =>
    if h : x = y then .isTrue (by rw [h])
    else .isFalse (fun hh => h (by cases hh; rfl))
  | .ok _, .error _ => .isFalse (fun hh => Except.noConfusion hh)
  | .error _, .ok _ => .isFalse (fun hh => Except.noConfusion hh)
  | .error x, .error y =>
    if h : x = y then .isTrue (by rw [h])
    else .isFalse (fun hh => h (by cases hh; rfl))

instance {ε α : Type} [DecidableEq ε] [DecidableEq α] : DecidableEq (Except ε α) :=
  exceptDecEq

/-! ## Route patterns and the matcher

Modelled from the spec: the external `matchit` matcher boundary (spec §6:
`Matcher.insert(pattern, value) -> Result<(), AmbiguousPattern>`;
`Matcher.match(path) -> Option (value, path_params)`), used by `run` at
src/lib.rs lines 91–94 and 109.  A pattern is a `/`-separated list of
segments; a segment written `\x7bname\x7d` is a parameter capture that
matches any single nonempty path segment. -/

/-- The `\x7b` character. -/
def lbrace : Char := Char.ofNat 123

/-- The `\x7d` character. -/
def rbrace : Char := Char.ofNat 125

/-- One segment of a route pattern: a literal, or a named parameter capture. -/
inductive Seg where
  | lit (s : String)
  | cap (name : String)
deriving DecidableEq, Repr

/-- Split a character list on a separator character. -/
def splitCharsOn (sep : Char) : List Char → List (List Char)
  | [] => [[]]
  | c :: cs =>
    let rest := splitCharsOn sep cs
    if c = sep then [] :: rest
    else
      match rest with
      | r :: rs => (c :: r) :: rs
      | [] => [[c]]

/-- The segments of a path or pattern string: everything after the leading
`/`, split on `/`.  Empty segments are kept (so a trailing slash yields a
final empty segment, as in `matchit`). -/
def pathSegs (p : String) : List String :=
  ((splitCharsOn '/' p.data).map (fun cs => String.mk cs)).drop 1

/-- Parse one pattern segment: `\x7bname\x7d` is a capture, anything else a
literal. -/
def parseSeg (cs : List Char) : Seg :=
  match cs with
  | c :: rest =>
    if c = lbrace ∧ rest.getLast? = some rbrace then
      Seg.cap (String.mk rest.dropLast)
    else Seg.lit (String.mk (c :: rest))
  | [] => Seg.lit (String.mk [])

/-- Parse a whole route pattern into segments. -/
def parsePattern (p : String) : List Seg :=
  ((splitCharsOn '/' p.data).map parseSeg).drop 1

/-- A route descriptor: the data `run` reads off each registered handler
(`Handler::path` and `Handler::needs_multipart`, src/lib.rs lines 64–74). -/
structure RouteSpec where
  path : String
  needsMultipart : Bool
deriving DecidableEq, Repr

/-- The parsed pattern of a route descriptor. -/
def patOf (s : RouteSpec) : List Seg := parsePattern s.path

/-- A compiled per-worker route table: insertion-ordered patterns with their
descriptors. -/
abbrev Router := List (List Seg × RouteSpec)

/-- Modelled from the spec: the matcher's insertion error (`AmbiguousPattern`
/ `DuplicatePattern`, spec §4.1 and §6). -/
inductive InsertError where
  | conflict
deriving DecidableEq, Repr

/-- Modelled from the spec: `Matcher.insert`.  Registering a pattern that
collides with an already-registered one (modelled as structural pattern
equality, covering in particular two identical literal paths) fails with a
conflict and leaves the table unchanged; otherwise the entry is appended. -/
def routerInsert (r : Router) (s : RouteSpec) : Except InsertError Router :=
  if patOf s ∈ r.map Prod.fst then Except.error InsertError.conflict
  else Except.ok (r ++ [(patOf s, s)])

/-- The router-building loop of `run` (src/lib.rs lines 91–94):
`for route in routes { router.insert(route.path(), *route).unwrap() }`.
The first failing insert aborts startup (the `.unwrap()` panic is modelled
as propagating the error). -/
def buildRouterAux : Router → List RouteSpec → Except InsertError Router
  | acc, [] => Except.ok acc
  | acc, s :: rest =>
    match routerInsert acc s with
    | Except.error e => Except.error e
    | Except.ok acc2 => buildRouterAux acc2 rest

/-- Build one worker's route table from the static descriptor list. -/
def buildRouter (routes : List RouteSpec) : Except InsertError Router :=
  buildRouterAux [] routes

/-- Match a pattern's segments against a path's segments, binding parameter
captures positionally.  A capture matches exactly one nonempty segment. -/
def matchSegs : List Seg → List String → Option (List (String × String))
  | [], [] => some []
  | Seg.lit s :: ps, x :: xs =>
    if x = s then matchSegs ps xs else none
  | Seg.cap n :: ps, x :: xs =>
    if x = "" then none
    else (matchSegs ps xs).map (fun ys => (n, x) :: ys)
  | _, _ => none

/-- Modelled from the spec: `Matcher.match` (`router.at`, src/lib.rs line
109): the first registered pattern matching the path wins, yielding the
descriptor and the positional parameter bindings. -/
def routerAt : Router → String → Option (RouteSpec × List (String × String))
  | [], _ => none
  | e :: rest, path =>
    match matchSegs e.1 (pathSegs path) with
    | some ps => some (e.2, ps)
    | none => routerAt rest path

/-- The parameter bindings a pattern produces on a path, stated positionally:
each capture slot is paired with the path segment at the same position. -/
def positionalParams (pat : List Seg) (segs : List String) : List (String × String) :=
  (pat.zip segs).filterMap fun p =>
    match p.1 with
    | Seg.cap n => some (n, p.2)
    | Seg.lit _ => none

/-! ## Multipart extraction and the dispatch loop

The dispatch loop body (src/lib.rs lines 98–158) is embedded as a step
function.  Per-request inputs that come from the outside world — the parse
outcome of the `multipart` collaborator, the result the matched handler
returns, and the result of flushing the output writer — are carried on the
incoming request as oracles. -/

/-- The result of `multipart.data.read_to_end(&mut buffer)` on a part's data
stream: either all the part's bytes, or an I/O error mid-read (with the
bytes appended to the buffer before the failure). -/
inductive ReadOutcome where
  | ok (bytes : List Nat)
  | ioError (readSoFar : List Nat)
deriving DecidableEq, Repr

/-- Modelled from the spec: what the external `multipart` parser yields for a
request body (spec §6: `parse_first_part`).  `malformed` covers both a
non-multipart request (`Multipart::from_request` errs) and malformed
multipart framing (`into_entry().into_result()` errs); `noParts` is a
well-formed body with no parts; `part` is the first part with its header
metadata and the outcome of reading its data stream. -/
inductive MultipartBody where
  | malformed
  | noParts
  | part (name : String) (fileName : Option String) (contentType : Option String)
      (dataRead : ReadOutcome)
deriving DecidableEq, Repr

/-- `MultipartEntry` from src/lib.rs lines 16–21: the extracted upload handed
to the handler.  `data` is the slice `&buffer` — the worker buffer's entire
contents at the time of the handler call. -/
structure MultipartEntry where
  name : String
  fileName : Option String
  contentType : Option String
  data : List Nat
deriving DecidableEq, Repr

/-- One inbound request as the dispatch loop observes it, with the
per-request outcomes of the external collaborators as oracles. -/
structure IncomingRequest where
  url : String
  body : MultipartBody
  handlerOutcome : BeakResult Unit
  flushResult : Except IOErr Unit
deriving DecidableEq, Repr

/-- The arguments the matched handler's `handle` receives through the
`Request` view (src/lib.rs lines 128–139): the URL, the positional path
parameters, and the optional extracted upload. -/
structure HandlerCall where
  url : String
  params : List (String × String)
  upload : Option MultipartEntry
deriving DecidableEq, Repr

/-- The `.unwrap()` sites in the dispatch loop at which a worker thread can
panic: `router.at(&url).unwrap()` (line 109),
`multipart.data.read_to_end(&mut buffer).unwrap()` (line 117),
`matched.value.handle(..).unwrap()` (lines 137–140), and
`ignore_client_closing_errors(resp_writer.flush()).unwrap()` (line 142). -/
inductive PanicReason where
  | noRouteMatch
  | multipartReadFailed
  | handlerErrored
  | flushFailed
deriving DecidableEq, Repr

/-- The observable outcome of one trip through the dispatch loop body:
whether the worker panicked (and at which unwrap), whether multipart
extraction was entered, the handler invocation (if it happened) with its
arguments, the worker buffer afterwards, and whether the loop itself wrote a
not-found response (the loop body contains no such write path, so no branch
of the model ever sets this). -/
structure StepOut where
  panicked : Option PanicReason
  multipartAttempted : Bool
  handlerArg : Option HandlerCall
  buffer : List Nat
  respondedNotFound : Bool
deriving DecidableEq, Repr

/-- Modelled from the spec: `tiny_http`'s `ignore_client_closing_errors`
(spec §4.5 / §7, `ClientDisconnect`): an error caused by the client closing
the connection early is suppressed into success; any other result passes
through. -/
def ignoreClientClosingErrors : Except IOErr Unit → Except IOErr Unit
  | Except.error e => if e.clientClosing then Except.ok () else Except.error e
  | Except.ok _ => Except.ok ()

/-- The tail of the loop body once a `Request` view has been built
(src/lib.rs lines 127–142): invoke the matched handler and unwrap its
result, then flush the response writer through
`ignore_client_closing_errors` and unwrap. -/
def dispatchAndFlush (attempted : Bool) (call : HandlerCall) (buffer : List Nat)
    (req : IncomingRequest) : StepOut :=
  match req.handlerOutcome with
  | Except.error _ =>
    { panicked := some PanicReason.handlerErrored, multipartAttempted := attempted,
      handlerArg := some call, buffer := buffer, respondedNotFound := false }
  | Except.ok _ =>
    match ignoreClientClosingErrors req.flushResult with
    | Except.error _ =>
      { panicked := some PanicReason.flushFailed, multipartAttempted := attempted,
        handlerArg := some call, buffer := buffer, respondedNotFound := false }
    | Except.ok _ =>
      { panicked := none, multipartAttempted := attempted,
        handlerArg := some call, buffer := buffer, respondedNotFound := false }

/-- One trip through the dispatch loop body (src/lib.rs lines 99–157) for one
request, given the worker's route table and current buffer:
`router.at(&url).unwrap()` — no match panics the worker; if the matched
handler `needs_multipart()`, try to extract one part, where
`read_to_end(&mut buffer)` APPENDS the part's bytes to the buffer (the
buffer is never cleared) and the extracted entry's `data` is the whole
buffer; any parse failure leaves the entry `None`; then dispatch and
flush. -/
def workerStep (router : Router) (buffer : List Nat) (req : IncomingRequest) : StepOut :=
  match routerAt router req.url with
  | none =>
    { panicked := some PanicReason.noRouteMatch, multipartAttempted := false,
      handlerArg := none, buffer := buffer, respondedNotFound := false }
  | some (route, params) =>
    if route.needsMultipart then
      match req.body with
      | MultipartBody.part n f c (ReadOutcome.ok bytes) =>
        dispatchAndFlush true
          { url := req.url, params := params,
            upload := some { name := n, fileName := f, contentType := c,
                             data := buffer ++ bytes } }
          (buffer ++ bytes) req
      | MultipartBody.part _ _ _ (ReadOutcome.ioError bs) =>
        { panicked := some PanicReason.multipartReadFailed, multipartAttempted := true,
          handlerArg := none, buffer := buffer ++ bs, respondedNotFound := false }
      | _ =>
        dispatchAndFlush true { url := req.url, params := params, upload := none }
          buffer req
    else
      dispatchAndFlush false { url := req.url, params := params, upload := none }
        buffer req

/-- A worker's dispatch loop over a script of delivered requests: each step
threads the (never-cleared) buffer; a panic ends the thread, so later
requests in the script are never processed. -/
def workerRun (router : Router) : List Nat → List IncomingRequest → List StepOut
  | _, [] => []
  | buf, r :: rs =>
    match (workerStep router buf r).panicked with
    | some _ => [workerStep router buf r]
    | none => workerStep router buf r :: workerRun router (workerStep router buf r).buffer rs

/-- `Vec::with_capacity(multipart_upload_limit)` (src/lib.rs line 96): the
worker buffer starts empty; the capacity argument only preallocates and
does not bound later growth (`read_to_end` reallocates past it freely). -/
def mkBuffer (_capacity : Nat) : List Nat := []

/-- The `run` entry point (src/lib.rs lines 76–168), with the listener
address and application context abstracted away: build the route table from
the static descriptor list (the first insert conflict aborts startup before
any worker serves a request), then each of the `workers` workers runs its
own dispatch loop over its own delivered-connection script with its own
fresh buffer. -/
def run (workers : Nat) (multipartUploadLimit : Nat) (routes : List RouteSpec)
    (scripts : List (List IncomingRequest)) : Except InsertError (List (List StepOut)) :=
  match buildRouter routes with
  | Except.error e => Except.error e
  | Except.ok router =>
    Except.ok ((scripts.take workers).map fun sc =>
      workerRun router (mkBuffer multipartUploadLimit) sc)

/-! ## `Request::respond` (src/lib.rs lines 33–50)

The response serialization lives in `tiny_http` (`Response::new` and
`print_and_write`), an external collaborator; it is modelled from the spec
(§4.4: the handler "must use the output sink to emit exactly one response
(status, headers, body) before returning, using a writer callback that
receives the sink and an exhausted/empty input placeholder").  The bytes
written to the sink are abstracted into tokens so that "exactly one
response" is checkable. -/

/-- A header as `respond` receives it. -/
structure Header where
  name : String
  value : String
deriving DecidableEq, Repr

/-- `tiny_http::HTTPVersion`. -/
structure HTTPVersion where
  major : Nat
  minor : Nat
deriving DecidableEq, Repr

/-- A token written through the output sink. -/
inductive RespTok where
  | statusTok (major minor status : Nat)
  | headerTok (name value : String)
  | headersEnd
  | bodyByte (b : Nat)
deriving DecidableEq, Repr

/-- The pieces of a `tiny_http::Response` that `respond` constructs
(`Response::new(status.into(), headers, io::empty(), None, None)`):
a status code, a header list, and the response's data reader's bytes
(`io::empty()` contributes none). -/
structure ResponseModel where
  status : Nat
  headers : List Header
  dataBytes : List Nat

/-- Modelled from the spec: `tiny_http`'s `print_and_write`: write the
status line and the response headers, end the header block, then (unless
`doNotSendBody`) invoke the writer callback with the sink and a reader over
the response's data bytes; the callback's writes form the body.  The writer
is modelled as the function from the bytes its reader yields to the bytes
it writes. -/
def printAndWrite (ver : HTTPVersion) (res : ResponseModel) (doNotSendBody : Bool)
    (writer : List Nat → List Nat) : List RespTok :=
  RespTok.statusTok ver.major ver.minor res.status
    :: (res.headers.map (fun h => RespTok.headerTok h.name h.value)
      ++ RespTok.headersEnd
      :: (if doNotSendBody then [] else (writer res.dataBytes).map RespTok.bodyByte))

/-- `Request::respond` (src/lib.rs lines 33–50): build a response whose data
reader is `io::empty()` and print it through the view's output sink with
`do_not_send_body = false`; the writer callback therefore receives an
exhausted reader. -/
def respond (ver : HTTPVersion) (status : Nat) (headers : List Header)
    (writer : List Nat → List Nat) : List RespTok :=
  printAndWrite ver { status := status, headers := headers, dataBytes := [] } false writer

/-- Is a token a header line? -/
def isHeaderTok : RespTok → Bool
  | RespTok.headerTok _ _ => true
  | _ => false

/-- Is a token a body byte? -/
def isBodyTok : RespTok → Bool
  | RespTok.bodyByte _ => true
  | _ => false

/-- The body bytes of a token stream. -/
def bodyOf (toks : List RespTok) : List Nat :=
  toks.filterMap fun t =>
    match t with
    | RespTok.bodyByte b => some b
    | _ => none

/-- Does a token stream consist of exactly one well-formed response: one
status line, then header lines, then the end of headers, then only body
bytes? -/
def singleResponse (toks : List RespTok) : Bool :=
  match toks with
  | RespTok.statusTok _ _ _ :: rest =>
    match rest.dropWhile isHeaderTok with
    | RespTok.headersEnd :: bs => bs.all isBodyTok
    | _ => false
  | _ => false

/-! ## Concrete fixtures

Routes and requests used to evaluate the model on concrete inputs.
`nyaRoute` is the one route registered by src/main.rs
(`fn_to_handler!(NyaHandler with context (); "/nya" => handle)`, no
multipart); the others exercise multipart and parameterized routes. -/

/-- The `/nya` route of src/main.rs (`needs_multipart` is `false`). -/
def nyaRoute : RouteSpec := { path := "/nya", needsMultipart := false }

/-- The compiled route table for `[nyaRoute]`. -/
def nyaRouter : Router := [([Seg.lit "nya"], nyaRoute)]

/-- A route that declares it needs a body part. -/
def upRoute : RouteSpec := { path := "/up", needsMultipart := true }

/-- The compiled route table for `[upRoute]`. -/
def upRouter : Router := [([Seg.lit "up"], upRoute)]

/-- A parameterized route `/user/\x7bid\x7d`. -/
def userRoute : RouteSpec := { path := "/user/\x7bid\x7d", needsMultipart := false }

/-- The compiled route table for `[userRoute]`. -/
def userRouter : Router := [([Seg.lit "user", Seg.cap "id"], userRoute)]

/-- A request to a path no route matches; all oracles benign. -/
def reqMiss : IncomingRequest :=
  { url := "/missing", body := MultipartBody.noParts,
    handlerOutcome := Except.ok (), flushResult := Except.ok () }

/-- A benign request to `/nya`. -/
def reqNya : IncomingRequest :=
  { url := "/nya", body := MultipartBody.noParts,
    handlerOutcome := Except.ok (), flushResult := Except.ok () }

/-- A request to `/up` carrying a part with data `[1, 2]`. -/
def reqUpA : IncomingRequest :=
  { url := "/up", body := MultipartBody.part "f" none none (ReadOutcome.ok [1, 2]),
    handlerOutcome := Except.ok (), flushResult := Except.ok () }

/-- A request to `/up` carrying a part with data `[3]`. -/
def reqUpB : IncomingRequest :=
  { url := "/up", body := MultipartBody.part "f" none none (ReadOutcome.ok [3]),
    handlerOutcome := Except.ok (), flushResult := Except.ok () }

/-- A request to `/up` whose part data stream fails mid-read. -/
def reqUpIoErr : IncomingRequest :=
  { url := "/up", body := MultipartBody.part "f" none none (ReadOutcome.ioError []),
    handlerOutcome := Except.ok (), flushResult := Except.ok () }

/-- A request to `/up` carrying a part with data `[7, 7, 7]`. -/
def reqUpBig : IncomingRequest :=
  { url := "/up", body := MultipartBody.part "f" none none (ReadOutcome.ok [7, 7, 7]),
    handlerOutcome := Except.ok (), flushResult := Except.ok () }

/-- A request to `/nya` whose handler returns an error. -/
def reqNyaHandlerErr : IncomingRequest :=
  { url := "/nya", body := MultipartBody.noParts,
    handlerOutcome := Except.error (BeakError.IOError { clientClosing := false }),
    flushResult := Except.ok () }

/-- A request to `/nya` whose flush fails with a client-close error. -/
def reqNyaFlushClose : IncomingRequest :=
  { url := "/nya", body := MultipartBody.noParts,
    handlerOutcome := Except.ok (),
    flushResult := Except.error { clientClosing := true } }

/-- A request to `/nya` whose flush fails with a non-client-close I/O error. -/
def reqNyaFlushErr : IncomingRequest :=
  { url := "/nya", body := MultipartBody.noParts,
    handlerOutcome := Except.ok (),
    flushResult := Except.error { clientClosing := false } }

/-! ## Helper lemmas -/

/-- Field values of `dispatchAndFlush`: the handler is always invoked with
the given call, the buffer is passed through, no not-found response is
written, and the only possible panics are the handler unwrap and the flush
unwrap. -/
theorem dispatchAndFlush_fields (a : Bool) (call : HandlerCall) (buf : List Nat)
    (req : IncomingRequest) :
    (dispatchAndFlush a call buf req).handlerArg = some call ∧
    (dispatchAndFlush a call buf req).buffer = buf ∧
    (dispatchAndFlush a call buf req).multipartAttempted = a ∧
    (dispatchAndFlush a call buf req).respondedNotFound = false ∧
    ((dispatchAndFlush a call buf req).panicked = none ∨
      (dispatchAndFlush a call buf req).panicked = some PanicReason.handlerErrored ∨
      (dispatchAndFlush a call buf req).panicked = some PanicReason.flushFailed) := by
  unfold dispatchAndFlush
  cases req.handlerOutcome with
  | error e => simp
  | ok u =>
    cases h : ignoreClientClosingErrors req.flushResult with
    | error e2 => simp
    | ok u2 => simp

/-- If the handler's result is an error, `dispatchAndFlush` panics at the
handler unwrap. -/
theorem dispatchAndFlush_handlerErr (a : Bool) (call : HandlerCall) (buf : List Nat)
    (req : IncomingRequest) (e : BeakError) (h : req.handlerOutcome = Except.error e) :
    (dispatchAndFlush a call buf req).panicked = some PanicReason.handlerErrored := by
  unfold dispatchAndFlush
  rw [h]

/-- Flush behavior after a successful handler: a client-close error is
suppressed (no panic); any other flush error panics at the flush unwrap. -/
theorem dispatchAndFlush_flush (a : Bool) (call : HandlerCall) (buf : List Nat)
    (req : IncomingRequest) (e : IOErr)
    (hok : req.handlerOutcome = Except.ok ()) (hf : req.flushResult = Except.error e) :
    (e.clientClosing = true → (dispatchAndFlush a call buf req).panicked = none) ∧
    (e.clientClosing = false →
      (dispatchAndFlush a call buf req).panicked = some PanicReason.flushFailed) := by
  unfold dispatchAndFlush ignoreClientClosingErrors
  rw [hok, hf]
  constructor
  · intro hcc; simp [hcc]
  · intro hcc; simp [hcc]

/-- If a step invoked the handler at all, the step is a `dispatchAndFlush`
tail for some extraction state, handler call and buffer. -/
theorem workerStep_dispatch_cases (router : Router) (buf : List Nat)
    (req : IncomingRequest)
    (hinv : (workerStep router buf req).handlerArg ≠ none) :
    ∃ a call buf2, workerStep router buf req = dispatchAndFlush a call buf2 req := by
  unfold workerStep at hinv ⊢
  cases hm : routerAt router req.url with
  | none => rw [hm] at hinv; simp at hinv
  | some rp =>
    obtain ⟨route, params⟩ := rp
    rw [hm] at hinv
    cases hb : route.needsMultipart with
    | false => simp only [hb] at hinv ⊢; exact ⟨_, _, _, rfl⟩
    | true =>
      simp only [hb] at hinv ⊢
      cases hbody : req.body with
      | malformed => exact ⟨_, _, _, rfl⟩
      | noParts => exact ⟨_, _, _, rfl⟩
      | part n f c dr =>
        cases dr with
        | ok bytes => exact ⟨_, _, _, rfl⟩
        | ioError bs => rw [hbody] at hinv; simp at hinv

/-- If the registration loop succeeds, no two registered patterns are equal,
and none equals a pattern already in the accumulator. -/
theorem buildRouterAux_ok_nodup :
    ∀ (routes : List RouteSpec) (acc r : Router),
      buildRouterAux acc routes = Except.ok r →
      (routes.map patOf).Nodup ∧ ∀ p ∈ routes.map patOf, p ∉ acc.map Prod.fst := by
  intro routes
  induction routes with
  | nil =>
    intro acc r _
    refine ⟨List.nodup_nil, ?_⟩
    intro p hp
    simp at hp
  | cons s rest ih =>
    intro acc r h
    unfold buildRouterAux routerInsert at h
    by_cases hc : patOf s ∈ acc.map Prod.fst
    · rw [if_pos hc] at h
      simp at h
    · rw [if_neg hc] at h
      obtain ⟨h1, h2⟩ := ih (acc ++ [(patOf s, s)]) r h
      have hmapacc : (acc ++ [(patOf s, s)]).map Prod.fst
          = acc.map Prod.fst ++ [patOf s] := by simp
      rw [hmapacc] at h2
      constructor
      · rw [List.map_cons, List.nodup_cons]
        refine ⟨?_, h1⟩
        intro hmem
        have := h2 (patOf s) hmem
        simp at this
      · intro p hp
        rw [List.map_cons] at hp
        rcases List.mem_cons.mp hp with hps | hpr
        · rw [hps]; exact hc
        · intro hpacc
          exact h2 p hpr (List.mem_append_left _ hpacc)

/-- If a pattern's segments match a path's segments, the resulting bindings
are exactly the positional bindings: each capture slot paired with the path
segment in the same position. -/
theorem matchSegs_positional :
    ∀ (pat : List Seg) (segs : List String) (params : List (String × String)),
      matchSegs pat segs = some params → params = positionalParams pat segs := by
  intro pat
  induction pat with
  | nil =>
    intro segs params h
    cases segs with
    | nil =>
      simp [matchSegs] at h
      rw [h]
      rfl
    | cons x xs => simp [matchSegs] at h
  | cons sg rest ih =>
    intro segs params h
    cases segs with
    | nil => cases sg <;> simp [matchSegs] at h
    | cons x xs =>
      cases sg with
      | lit s =>
        rw [matchSegs] at h
        by_cases hx : x = s
        · rw [if_pos hx] at h
          have := ih xs params h
          rw [this]
          simp [positionalParams]
        · rw [if_neg hx] at h
          cases h
      | cap n =>
        rw [matchSegs] at h
        by_cases hx : x = ""
        · rw [if_pos hx] at h
          cases h
        · rw [if_neg hx] at h
          rcases Option.map_eq_some'.mp h with ⟨ys, hys, hparams⟩
          have := ih xs ys hys
          rw [← hparams, this]
          simp [positionalParams]

/-- A successful match in the route table comes from some registered entry
whose pattern matches the path. -/
theorem routerAt_mem :
    ∀ (r : Router) (path : String) (route : RouteSpec) (params : List (String × String)),
      routerAt r path = some (route, params) →
      ∃ pat, (pat, route) ∈ r ∧ matchSegs pat (pathSegs path) = some params := by
  intro r
  induction r with
  | nil => intro path route params h; simp [routerAt] at h
  | cons e rest ih =>
    intro path route params h
    rw [routerAt] at h
    cases hm : matchSegs e.1 (pathSegs path) with
    | some ps =>
      rw [hm] at h
      simp at h
      obtain ⟨h1, h2⟩ := h
      refine ⟨e.1, ?_, ?_⟩
      · rw [← h1]
        exact List.mem_cons_self _ _
      · rw [hm, h2]
    | none =>
      rw [hm] at h
      obtain ⟨pat, hmem, hmatch⟩ := ih path route params h
      exact ⟨pat, List.mem_cons_of_mem _ hmem, hmatch⟩

/-- Unfolding equation for `workerRun` on a nonempty script. -/
theorem workerRun_cons (router : Router) (buf : List Nat) (r : IncomingRequest)
    (rs : List IncomingRequest) :
    workerRun router buf (r :: rs) =
      match (workerStep router buf r).panicked with
      | some _ => [workerStep router buf r]
      | none => workerStep router buf r :: workerRun router (workerStep router buf r).buffer rs :=
  rfl

/-- Dropping header tokens from a header block followed by the header-block
end reaches exactly the end marker. -/
theorem dropWhile_headerBlock (hs : List Header) (l : List RespTok) :
    List.dropWhile isHeaderTok
        (hs.map (fun h => RespTok.headerTok h.name h.value) ++ RespTok.headersEnd :: l)
      = RespTok.headersEnd :: l := by
  induction hs with
  | nil => simp [List.dropWhile, isHeaderTok]
  | cons h rest ih => simp [List.dropWhile, isHeaderTok, ih]

/-- Mapped body bytes are all body tokens. -/
theorem all_bodyByte (bs : List Nat) : (bs.map RespTok.bodyByte).all isBodyTok = true := by
  induction bs with
  | nil => rfl
  | cons b rest ih => simp [isBodyTok, ih]

/-- Extracting the body of mapped body bytes recovers the bytes. -/
theorem bodyOf_map_bodyByte (bs : List Nat) : bodyOf (bs.map RespTok.bodyByte) = bs := by
  induction bs with
  | nil => rfl
  | cons b rest ih => simp only [bodyOf, List.map_cons, List.filterMap_cons] at ih ⊢; rw [ih]

/-- A header block contributes no body bytes. -/
theorem bodyOf_headerBlock (hs : List Header) (l : List RespTok) :
    bodyOf (hs.map (fun h => RespTok.headerTok h.name h.value) ++ l) = bodyOf l := by
  induction hs with
  | nil => rfl
  | cons h rest ih => simp only [bodyOf, List.map_cons, List.cons_append,
      List.filterMap_cons] at ih ⊢; rw [ih]

/-! ## Claims -/

/-- Claim C1, amended.  The claim says an unmatched path yields a not-found
response and the worker returns to idle without faulting.  On the code, the
part about never invoking multipart extraction or the handler holds, but no
not-found response exists: `router.at(&url).unwrap()` (src/lib.rs line 109)
panics the worker on a failed match, so no response is written and the
worker processes no further connections. -/
theorem C1_unmatched_path_faults (router : Router) (buf : List Nat)
    (req : IncomingRequest) (rest : List IncomingRequest)
    (h : routerAt router req.url = none) :
    (workerStep router buf req).panicked = some PanicReason.noRouteMatch ∧
    (workerStep router buf req).multipartAttempted = false ∧
    (workerStep router buf req).handlerArg = none ∧
    (workerStep router buf req).respondedNotFound = false ∧
    workerRun router buf (req :: rest) = [workerStep router buf req] := by
  have hstep : workerStep router buf req =
      { panicked := some PanicReason.noRouteMatch, multipartAttempted := false,
        handlerArg := none, buffer := buf, respondedNotFound := false } := by
    unfold workerStep
    rw [h]
  refine ⟨by rw [hstep], by rw [hstep], by rw [hstep], by rw [hstep], ?_⟩
  unfold workerRun
  rw [hstep]

/-- Claim C1 counterexample: under the route table of src/main.rs, a request
to an unmatched path makes the worker panic with no not-found response and
no handler invocation, and a subsequent connection is never processed —
refuting "responds with a not-found status ... the worker does not fault and
keeps processing subsequent connections". -/
theorem C1_counterexample :
    buildRouter [nyaRoute] = Except.ok nyaRouter ∧
    (workerStep nyaRouter [] reqMiss).panicked = some PanicReason.noRouteMatch ∧
    (workerStep nyaRouter [] reqMiss).respondedNotFound = false ∧
    (workerStep nyaRouter [] reqMiss).handlerArg = none ∧
    workerRun nyaRouter [] [reqMiss, reqNya] = [workerStep nyaRouter [] reqMiss] := by
  decide

/-- Claim C1 witness: the amended theorem applied at a concrete unmatched
request. -/
theorem C1_witness :
    routerAt nyaRouter reqMiss.url = none ∧
    ((workerStep nyaRouter [] reqMiss).panicked = some PanicReason.noRouteMatch ∧
     (workerStep nyaRouter [] reqMiss).multipartAttempted = false ∧
     (workerStep nyaRouter [] reqMiss).handlerArg = none ∧
     (workerStep nyaRouter [] reqMiss).respondedNotFound = false ∧
     workerRun nyaRouter [] [reqMiss] = [workerStep nyaRouter [] reqMiss]) :=
  ⟨by decide, C1_unmatched_path_faults nyaRouter [] reqMiss [] (by decide)⟩

/-- Claim C2 evaluated at a failing input.  The claim says the per-worker
buffer is overwritten on each extraction, so an Extracted Upload's data is
exactly that part's bytes.  The code appends (`read_to_end` into a
never-cleared `Vec`, src/lib.rs line 117) and hands the handler the whole
buffer (line 122): after a first request uploads `[1, 2]`, a second request
uploading `[3]` observes data `[1, 2, 3]` — bytes left over from the
earlier request. -/
theorem C2_buffer_leak_eval :
    buildRouter [upRoute] = Except.ok upRouter ∧
    (workerRun upRouter [] [reqUpA, reqUpB]).map
        (fun s => s.handlerArg.map fun c => c.upload.map fun u => u.data)
      = [some (some [1, 2]), some (some [1, 2, 3])] ∧
    ¬ ([1, 2, 3] : List Nat) = [3] := by
  decide

/-- Claim C3, amended.  The claim says every extraction failure (malformed
framing, no parts, or an I/O error while reading the part's data) results in
the handler being invoked with an absent upload and is never a fault.  That
holds for malformed framing and for absent parts; but an I/O error while
reading the part's data hits `read_to_end(..).unwrap()` (src/lib.rs line
117), which panics the worker and the handler is never invoked. -/
theorem C3_extraction_failure_behavior (router : Router) (buf : List Nat)
    (req : IncomingRequest) (route : RouteSpec) (params : List (String × String))
    (hmatch : routerAt router req.url = some (route, params))
    (hneed : route.needsMultipart = true) :
    ((req.body = MultipartBody.malformed ∨ req.body = MultipartBody.noParts) →
      (workerStep router buf req).multipartAttempted = true ∧
      (workerStep router buf req).handlerArg =
        some { url := req.url, params := params, upload := none } ∧
      (workerStep router buf req).panicked ≠ some PanicReason.multipartReadFailed ∧
      (workerStep router buf req).panicked ≠ some PanicReason.noRouteMatch) ∧
    (∀ n f c bs, req.body = MultipartBody.part n f c (ReadOutcome.ioError bs) →
      (workerStep router buf req).panicked = some PanicReason.multipartReadFailed ∧
      (workerStep router buf req).handlerArg = none) := by
  constructor
  · intro hbody
    have hstep : workerStep router buf req =
        dispatchAndFlush true { url := req.url, params := params, upload := none }
          buf req := by
      unfold workerStep
      rcases hbody with hb | hb <;> rw [hmatch, hb] <;> simp [hneed]
    rw [hstep]
    obtain ⟨h1, _h2, h3, _h4, h5⟩ := dispatchAndFlush_fields true
      { url := req.url, params := params, upload := none } buf req
    refine ⟨h3, h1, ?_, ?_⟩
    · rcases h5 with hh | hh | hh <;> rw [hh] <;> simp
    · rcases h5 with hh | hh | hh <;> rw [hh] <;> simp
  · intro n f c bs hbody
    have hstep : workerStep router buf req =
        { panicked := some PanicReason.multipartReadFailed, multipartAttempted := true,
          handlerArg := none, buffer := buf ++ bs, respondedNotFound := false } := by
      unfold workerStep
      rw [hmatch, hbody]
      simp [hneed]
    rw [hstep]
    exact ⟨rfl, rfl⟩

/-- Claim C3 counterexample: an I/O error while reading the part's data
panics the worker before the handler is invoked — refuting "extraction
failure is never surfaced as a fault and never prevents the handler
invocation". -/
theorem C3_counterexample :
    buildRouter [upRoute] = Except.ok upRouter ∧
    (workerStep upRouter [] reqUpIoErr).panicked = some PanicReason.multipartReadFailed ∧
    (workerStep upRouter [] reqUpIoErr).handlerArg = none := by
  decide

/-- Claim C3 witness: the amended theorem applied at a concrete multipart
route and request. -/
theorem C3_witness :
    (routerAt upRouter reqUpIoErr.url = some (upRoute, []) ∧
     upRoute.needsMultipart = true) ∧
    (((reqUpIoErr.body = MultipartBody.malformed ∨ reqUpIoErr.body = MultipartBody.noParts) →
       (workerStep upRouter [] reqUpIoErr).multipartAttempted = true ∧
       (workerStep upRouter [] reqUpIoErr).handlerArg =
         some { url := reqUpIoErr.url, params := [], upload := none } ∧
       (workerStep upRouter [] reqUpIoErr).panicked ≠ some PanicReason.multipartReadFailed ∧
       (workerStep upRouter [] reqUpIoErr).panicked ≠ some PanicReason.noRouteMatch) ∧
     (∀ n f c bs, reqUpIoErr.body = MultipartBody.part n f c (ReadOutcome.ioError bs) →
       (workerStep upRouter [] reqUpIoErr).panicked = some PanicReason.multipartReadFailed ∧
       (workerStep upRouter [] reqUpIoErr).handlerArg = none)) :=
  ⟨⟨by decide, by decide⟩,
   C3_extraction_failure_behavior upRouter [] reqUpIoErr upRoute [] (by decide) (by decide)⟩

/-- Claim C4, amended.  The claim says a part exceeding the configured
buffer capacity either hard-fails the request or is truncated, never
silently succeeding past the capacity.  On the code, the
`multipart_upload_limit` only preallocates the `Vec` (src/lib.rs line 96);
`read_to_end` grows it freely (line 117), so an oversized part silently
succeeds: the handler receives the full, untruncated data, longer than the
configured capacity, with no failure. -/
theorem C4_oversized_part_succeeds (limit : Nat) (router : Router)
    (req : IncomingRequest) (route : RouteSpec) (params : List (String × String))
    (n : String) (f c : Option String) (bytes : List Nat)
    (hmatch : routerAt router req.url = some (route, params))
    (hneed : route.needsMultipart = true)
    (hbody : req.body = MultipartBody.part n f c (ReadOutcome.ok bytes))
    (hover : limit < bytes.length) :
    (workerStep router (mkBuffer limit) req).multipartAttempted = true ∧
    (workerStep router (mkBuffer limit) req).panicked ≠ some PanicReason.multipartReadFailed ∧
    ∃ call, (workerStep router (mkBuffer limit) req).handlerArg = some call ∧
      ∃ u, call.upload = some u ∧ u.data = bytes ∧ limit < u.data.length := by
  have hstep : workerStep router (mkBuffer limit) req =
      dispatchAndFlush true
        { url := req.url, params := params,
          upload := some { name := n, fileName := f, contentType := c, data := bytes } }
        bytes req := by
    unfold workerStep
    rw [hmatch, hbody]
    simp [hneed, mkBuffer]
  rw [hstep]
  obtain ⟨h1, _h2, h3, _h4, h5⟩ := dispatchAndFlush_fields true
    { url := req.url, params := params,
      upload := some { name := n, fileName := f, contentType := c, data := bytes } }
    bytes req
  refine ⟨h3, ?_, ?_⟩
  · rcases h5 with hh | hh | hh <;> rw [hh] <;> simp
  · exact ⟨_, h1, _, rfl, rfl, hover⟩

/-- Claim C4 counterexample: with capacity 2, a 3-byte part is extracted
successfully and in full — refuting "never stores more than the configured
capacity while reporting success". -/
theorem C4_counterexample :
    buildRouter [upRoute] = Except.ok upRouter ∧
    (workerStep upRouter (mkBuffer 2) reqUpBig).panicked = none ∧
    (workerStep upRouter (mkBuffer 2) reqUpBig).handlerArg =
      some { url := "/up", params := [],
             upload := some { name := "f", fileName := none, contentType := none,
                              data := [7, 7, 7] } } ∧
    2 < ([7, 7, 7] : List Nat).length := by
  decide

/-- Claim C4 witness: the amended theorem applied at capacity 2 and a 3-byte
part. -/
theorem C4_witness :
    (routerAt upRouter reqUpBig.url = some (upRoute, []) ∧
     upRoute.needsMultipart = true ∧
     reqUpBig.body = MultipartBody.part "f" none none (ReadOutcome.ok [7, 7, 7]) ∧
     2 < ([7, 7, 7] : List Nat).length) ∧
    ((workerStep upRouter (mkBuffer 2) reqUpBig).multipartAttempted = true ∧
     (workerStep upRouter (mkBuffer 2) reqUpBig).panicked ≠ some PanicReason.multipartReadFailed ∧
     ∃ call, (workerStep upRouter (mkBuffer 2) reqUpBig).handlerArg = some call ∧
       ∃ u, call.upload = some u ∧ u.data = [7, 7, 7] ∧ 2 < u.data.length) :=
  ⟨⟨by decide, by decide, by decide, by decide⟩,
   C4_oversized_part_succeeds 2 upRouter reqUpBig upRoute [] "f" none none [7, 7, 7]
     (by decide) (by decide) (by decide) (by decide)⟩

/-- Claim C5, amended.  The claim says a handler error is confined to its
request and the worker continues its dispatch loop.  On the code,
`matched.value.handle(..).unwrap()` (src/lib.rs lines 137–140) panics the
worker on a handler error, so the worker stops and processes no subsequent
connections (each worker runs independently, so only that worker stops). -/
theorem C5_handler_error_kills_worker (router : Router) (buf : List Nat)
    (req : IncomingRequest) (rest : List IncomingRequest) (e : BeakError)
    (hinv : (workerStep router buf req).handlerArg ≠ none)
    (herr : req.handlerOutcome = Except.error e) :
    (workerStep router buf req).panicked = some PanicReason.handlerErrored ∧
    workerRun router buf (req :: rest) = [workerStep router buf req] := by
  obtain ⟨a, call, buf2, hstep⟩ := workerStep_dispatch_cases router buf req hinv
  have hp : (workerStep router buf req).panicked = some PanicReason.handlerErrored := by
    rw [hstep]
    exact dispatchAndFlush_handlerErr a call buf2 req e herr
  refine ⟨hp, ?_⟩
  unfold workerRun
  rw [hp]

/-- Claim C5 counterexample: a handler error panics the worker and a
subsequent connection is never processed — refuting "the worker continues
its dispatch loop and processes subsequent connections". -/
theorem C5_counterexample :
    buildRouter [nyaRoute] = Except.ok nyaRouter ∧
    (workerStep nyaRouter [] reqNyaHandlerErr).panicked = some PanicReason.handlerErrored ∧
    workerRun nyaRouter [] [reqNyaHandlerErr, reqNya]
      = [workerStep nyaRouter [] reqNyaHandlerErr] := by
  decide

/-- Claim C5 witness: the amended theorem applied at a concrete erroring
handler. -/
theorem C5_witness :
    ((workerStep nyaRouter [] reqNyaHandlerErr).handlerArg ≠ none ∧
     reqNyaHandlerErr.handlerOutcome
       = Except.error (BeakError.IOError { clientClosing := false })) ∧
    ((workerStep nyaRouter [] reqNyaHandlerErr).panicked = some PanicReason.handlerErrored ∧
     workerRun nyaRouter [] [reqNyaHandlerErr] = [workerStep nyaRouter [] reqNyaHandlerErr]) :=
  ⟨⟨by decide, by decide⟩,
   C5_handler_error_kills_worker nyaRouter [] reqNyaHandlerErr []
     (BeakError.IOError { clientClosing := false }) (by decide) (by decide)⟩

/-- Claim C6: if the static route list contains two descriptors whose
patterns collide (in particular two identical literal paths, which parse to
equal patterns), startup fails with a configuration error — the router
build's first failing insert aborts `run` before any worker processes a
request, so the first registration is never silently overwritten. -/
theorem C6_duplicate_pattern_fatal (routes : List RouteSpec) (workers limit : Nat)
    (scripts : List (List IncomingRequest))
    (h : ¬ (routes.map patOf).Nodup) :
    buildRouter routes = Except.error InsertError.conflict ∧
    run workers limit routes scripts = Except.error InsertError.conflict := by
  have hb : buildRouter routes = Except.error InsertError.conflict := by
    cases hcase : buildRouter routes with
    | error e => cases e; rfl
    | ok r => exact absurd (buildRouterAux_ok_nodup routes [] r hcase).1 h
  refine ⟨hb, ?_⟩
  unfold run
  rw [hb]

/-- Claim C6 witness: registering the same literal path twice aborts startup
with a conflict, with no worker trace produced. -/
theorem C6_witness :
    (¬ (([nyaRoute, nyaRoute] : List RouteSpec).map patOf).Nodup) ∧
    (buildRouter [nyaRoute, nyaRoute] = Except.error InsertError.conflict ∧
     run 4 200000 [nyaRoute, nyaRoute] [[reqNya]] = Except.error InsertError.conflict) :=
  ⟨by decide, C6_duplicate_pattern_fatal [nyaRoute, nyaRoute] 4 200000 [[reqNya]] (by decide)⟩

/-- Claim C7, amended.  After a successful handler, the flush step
(`ignore_client_closing_errors(resp_writer.flush()).unwrap()`, src/lib.rs
line 142) suppresses errors caused by the client closing early and the
worker continues; the claim's other half fails on the code: any other flush
I/O error hits the `.unwrap()` and panics the worker instead of being
routed to a non-fatal per-connection failure path. -/
theorem C7_flush_error_behavior (router : Router) (buf : List Nat)
    (req : IncomingRequest) (rest : List IncomingRequest) (e : IOErr)
    (hinv : (workerStep router buf req).handlerArg ≠ none)
    (hok : req.handlerOutcome = Except.ok ())
    (hf : req.flushResult = Except.error e) :
    (e.clientClosing = true →
      (workerStep router buf req).panicked = none ∧
      workerRun router buf (req :: rest)
        = workerStep router buf req
          :: workerRun router (workerStep router buf req).buffer rest) ∧
    (e.clientClosing = false →
      (workerStep router buf req).panicked = some PanicReason.flushFailed ∧
      workerRun router buf (req :: rest) = [workerStep router buf req]) := by
  obtain ⟨a, call, buf2, hstep⟩ := workerStep_dispatch_cases router buf req hinv
  obtain ⟨hsup, hprop⟩ := dispatchAndFlush_flush a call buf2 req e hok hf
  constructor
  · intro hcc
    have hp : (workerStep router buf req).panicked = none := by
      rw [hstep]; exact hsup hcc
    refine ⟨hp, ?_⟩
    simp only [workerRun_cons, hp]
  · intro hcc
    have hp : (workerStep router buf req).panicked = some PanicReason.flushFailed := by
      rw [hstep]; exact hprop hcc
    refine ⟨hp, ?_⟩
    simp only [workerRun_cons, hp]

/-- Claim C7 counterexample: a non-client-close flush error panics the
worker and a subsequent connection is never processed — refuting "any other
I/O error is routed to the per-connection failure path and does not crash
the worker". -/
theorem C7_counterexample :
    buildRouter [nyaRoute] = Except.ok nyaRouter ∧
    (workerStep nyaRouter [] reqNyaFlushErr).panicked = some PanicReason.flushFailed ∧
    workerRun nyaRouter [] [reqNyaFlushErr, reqNya]
      = [workerStep nyaRouter [] reqNyaFlushErr] := by
  decide

/-- Claim C7 witness: the amended theorem applied at a concrete
client-close flush error. -/
theorem C7_witness :
    ((workerStep nyaRouter [] reqNyaFlushClose).handlerArg ≠ none ∧
     reqNyaFlushClose.handlerOutcome = Except.ok () ∧
     reqNyaFlushClose.flushResult = Except.error { clientClosing := true }) ∧
    ((({ clientClosing := true } : IOErr).clientClosing = true →
       (workerStep nyaRouter [] reqNyaFlushClose).panicked = none ∧
       workerRun nyaRouter [] [reqNyaFlushClose]
         = workerStep nyaRouter [] reqNyaFlushClose
           :: workerRun nyaRouter (workerStep nyaRouter [] reqNyaFlushClose).buffer []) ∧
     (({ clientClosing := true } : IOErr).clientClosing = false →
       (workerStep nyaRouter [] reqNyaFlushClose).panicked = some PanicReason.flushFailed ∧
       workerRun nyaRouter [] [reqNyaFlushClose]
         = [workerStep nyaRouter [] reqNyaFlushClose])) :=
  ⟨⟨by decide, by decide, by decide⟩,
   C7_flush_error_behavior nyaRouter [] reqNyaFlushClose [] { clientClosing := true }
     (by decide) (by decide) (by decide)⟩

/-- Claim C8: route matching is deterministic for a fixed descriptor set —
two route tables built from the same static list are equal, so the same
path resolves to the same descriptor in both — and a successful match binds
path parameters positionally: the bindings are exactly the pattern's
capture slots paired with the path segments at the same positions. -/
theorem C8_match_deterministic_positional (routes : List RouteSpec) (r1 r2 : Router)
    (path : String)
    (h1 : buildRouter routes = Except.ok r1) (h2 : buildRouter routes = Except.ok r2) :
    routerAt r1 path = routerAt r2 path ∧
    ∀ route params, routerAt r1 path = some (route, params) →
      ∃ pat, (pat, route) ∈ r1 ∧ matchSegs pat (pathSegs path) = some params ∧
        params = positionalParams pat (pathSegs path) := by
  rw [h1] at h2
  have hr : r1 = r2 := by injection h2
  constructor
  · rw [hr]
  · intro route params hat
    obtain ⟨pat, hmem, hmatch⟩ := routerAt_mem r1 path route params hat
    exact ⟨pat, hmem, hmatch, matchSegs_positional pat (pathSegs path) params hmatch⟩

/-- Claim C8 witness: the theorem applied to the parameterized route
`/user/\x7bid\x7d` and the path `/user/42`. -/
theorem C8_witness :
    (buildRouter [userRoute] = Except.ok userRouter ∧
     buildRouter [userRoute] = Except.ok userRouter) ∧
    (routerAt userRouter "/user/42" = routerAt userRouter "/user/42" ∧
     ∀ route params, routerAt userRouter "/user/42" = some (route, params) →
       ∃ pat, (pat, route) ∈ userRouter ∧
         matchSegs pat (pathSegs "/user/42") = some params ∧
         params = positionalParams pat (pathSegs "/user/42")) :=
  ⟨⟨by decide, by decide⟩,
   C8_match_deterministic_positional [userRoute] userRouter userRouter "/user/42"
     (by decide) (by decide)⟩

/-- Claim C9: `respond` writes exactly one response — a status line, then
the headers, then the body produced by the writer callback — through the
view's output sink, and the writer callback is invoked with the sink and an
exhausted input reader (the body it produces is its output on empty reader
input). -/
theorem C9_respond_single_response (ver : HTTPVersion) (status : Nat)
    (headers : List Header) (writer : List Nat → List Nat) :
    singleResponse (respond ver status headers writer) = true ∧
    bodyOf (respond ver status headers writer) = writer [] := by
  have hform : respond ver status headers writer
      = RespTok.statusTok ver.major ver.minor status
        :: (headers.map (fun h => RespTok.headerTok h.name h.value)
          ++ RespTok.headersEnd :: (writer []).map RespTok.bodyByte) := by
    unfold respond printAndWrite
    simp
  rw [hform]
  constructor
  · unfold singleResponse
    dsimp only
    rw [dropWhile_headerBlock]
    exact all_bodyByte (writer [])
  · have hstat : bodyOf (RespTok.statusTok ver.major ver.minor status
        :: (headers.map (fun h => RespTok.headerTok h.name h.value)
          ++ RespTok.headersEnd :: (writer []).map RespTok.bodyByte))
        = bodyOf (headers.map (fun h => RespTok.headerTok h.name h.value)
          ++ RespTok.headersEnd :: (writer []).map RespTok.bodyByte) := by
      simp only [bodyOf, List.filterMap_cons]
    rw [hstat, bodyOf_headerBlock]
    have hend : bodyOf (RespTok.headersEnd :: (writer []).map RespTok.bodyByte)
        = bodyOf ((writer []).map RespTok.bodyByte) := by
      simp only [bodyOf, List.filterMap_cons]
    rw [hend, bodyOf_map_bodyByte]

/-- Claim C10: the public error type `BeakError` (src/err.rs) has exactly
one variant, wrapping an I/O error; every `BeakResult` a handler can return
is either success or an `IOError`-wrapped I/O error — no routing, multipart
or configuration error category exists at the public interface. -/
theorem C10_single_error_variant :
    (∀ e : BeakError, ∃ io, e = BeakError.IOError io) ∧
    (∀ r : BeakResult Unit, r = Except.ok () ∨
      ∃ io, r = Except.error (BeakError.IOError io)) := by
  constructor
  · intro e
    cases e with
    | IOError io => exact ⟨io, rfl⟩
  · intro r
    cases r with
    | ok u => cases u; exact Or.inl rfl
    | error e =>
      cases e with
      | IOError io => exact Or.inr ⟨io, rfl⟩

end Beak
